import Mathlib

/-!
Verification of the shared result/error-wrapping utilities of the
repository (`src/common/types.py`): the generic `Result` container
(`is_ok`, `is_err`, `unwrap`) and the `ensure_type` guard function.

The Python code is shallowly embedded: the `T | None` fields become
`Option` fields, a raised exception becomes `Except.error` carrying the
exception's message string, and Python runtime values/types relevant to
`ensure_type` are modelled by a small closed universe `PyVal`/`PyType`
with `isinstance` semantics (including the bool-is-a-subclass-of-int
relation of the Python type hierarchy).
-/

namespace CommonTypes

/-- Embedding of `class Result(Generic[T])`: fields `value: T | None` and
`error: str | None`, stored exactly as passed to `__init__`. -/
structure Result (V : Type) : Type where
  value : Option V
  error : Option String

/-- Embedding of `Result()` with both parameters left at their defaults:
`value` defaults to `None` and `error` defaults to `None`. -/
def Result.mkDefault (V : Type) : Result V :=
  { value := none, error := none }

/-- `is_ok`: `return self.error is None`. -/
def Result.is_ok {V : Type} (r : Result V) : Bool :=
  r.error.isNone

/-- `is_err`: `return self.error is not None`. -/
def Result.is_err {V : Type} (r : Result V) : Bool :=
  r.error.isSome

/-- `unwrap`: `if self.is_err: raise ValueError(f"Called unwrap on error: {self.error}")`,
otherwise `return self.value`.  The raised exception is modelled as
`Except.error` carrying the formatted message; on the raising branch
`self.error` is a string `e`, so the f-string yields
`"Called unwrap on error: " ++ e`. -/
def Result.unwrap {V : Type} (r : Result V) : Except String (Option V) :=
  match r.error with
  | some e => Except.error ("Called unwrap on error: " ++ e)
  | none => Except.ok r.value

/-- `unwrap` with the post-call object state made explicit.  The method
body only reads `self.is_err`, `self.error` and `self.value` and contains
no assignment to any attribute of `self`, so the object after the call is
the receiver unchanged. -/
def Result.unwrapS {V : Type} (r : Result V) : Result V × Except String (Option V) :=
  (r, r.unwrap)

/-- The Python runtime types occurring in the claims about `ensure_type`. -/
inductive PyType : Type
  | tNoneType
  | tBool
  | tInt
  | tStr
  | tList
  | tTuple
  deriving DecidableEq

/-- `__name__` of each modelled Python type. -/
def PyType.pyName : PyType → String
  | .tNoneType => "NoneType"
  | .tBool => "bool"
  | .tInt => "int"
  | .tStr => "str"
  | .tList => "list"
  | .tTuple => "tuple"

/-- A closed universe of Python runtime values sufficient for the claims
about `ensure_type`. -/
inductive PyVal : Type
  | vNone
  | vBool (b : Bool)
  | vInt (n : Int)
  | vStr (s : String)
  | vList (xs : List PyVal)
  | vTuple (xs : List PyVal)

/-- `type(value)` on the modelled universe. -/
def typeOf : PyVal → PyType
  | .vNone => .tNoneType
  | .vBool _ => .tBool
  | .vInt _ => .tInt
  | .vStr _ => .tStr
  | .vList _ => .tList
  | .vTuple _ => .tTuple

/-- The subclass relation among the modelled Python types: every type is
a subclass of itself, and `bool` is additionally a subclass of `int`
(the only proper-subclass pair in this universe, as in CPython). -/
def isSubclassOf (a b : PyType) : Bool :=
  a == b || (a == PyType.tBool && b == PyType.tInt)

/-- `isinstance(value, expected_type)` on the modelled universe: the
runtime type of the value is the expected type or a subclass of it. -/
def pyIsinstance (v : PyVal) (t : PyType) : Bool :=
  isSubclassOf (typeOf v) t

/-- `ensure_type(value, expected_type, name)`: raises
`TypeError(f"{name} must be {expected_type.__name__}, got {type(value).__name__}")`
when `isinstance(value, expected_type)` is false, otherwise returns
`None` (modelled as `Except.ok ()`). -/
def ensure_type (value : PyVal) (expected_type : PyType) (name : String) :
    Except String Unit :=
  if pyIsinstance value expected_type then Except.ok ()
  else
    Except.error
      (name ++ " must be " ++ expected_type.pyName ++ ", got " ++ (typeOf value).pyName)

/-- `ensure_type(value, expected_type)` with the `name` parameter left at
its default, the literal string `"value"`. -/
def ensure_type_default (value : PyVal) (expected_type : PyType) :
    Except String Unit :=
  ensure_type value expected_type "value"

/-- `sub` occurs verbatim as a contiguous substring of `s`. -/
def ContainsSubstr (s sub : String) : Prop :=
  ∃ p q, s = p ++ sub ++ q

end CommonTypes

namespace CommonTypes

/-- C1: for every `Result r`, `r.is_ok` is true iff `r.error` is `None`;
in particular, for every error string `e` including `""`,
`Result(value=None, error=e)` has `is_err` true and `is_ok` false: the
`None` sentinel, not truthiness, is tested. -/
theorem C1_is_ok_iff_error_none :
    (∀ (V : Type) (r : Result V), r.is_ok = true ↔ r.error = none) ∧
    (∀ (V : Type) (e : String),
      (Result.mk (none : Option V) (some e)).is_err = true ∧
      (Result.mk (none : Option V) (some e)).is_ok = false) := by
  constructor
  · intro V r
    simp [Result.is_ok, Option.isNone_iff_eq_none]
  · intro V e
    exact ⟨rfl, rfl⟩

/-- C2: for every `Result` constructed with `error=None`, `unwrap`
returns exactly the stored value, unchanged. -/
theorem C2_unwrap_returns_stored_value (V : Type) (v : Option V) :
    (Result.mk v none).unwrap = Except.ok v := rfl

/-- C3: for every `Result` constructed with a non-`None` error `e`,
`unwrap` fails and the failure's message contains `e` verbatim; `unwrap`
never fails when `error` is `None`. -/
theorem C3_unwrap_error_message :
    (∀ (V : Type) (v : Option V) (e : String),
      ∃ msg, (Result.mk v (some e)).unwrap = Except.error msg ∧ ContainsSubstr msg e) ∧
    (∀ (V : Type) (v : Option V), (Result.mk v none).unwrap = Except.ok v) := by
  constructor
  · intro V v e
    refine ⟨"Called unwrap on error: " ++ e, rfl, "Called unwrap on error: ", "", ?_⟩
    simp
  · intro V v
    rfl

/-- C4: `ensure_type v t name` succeeds exactly when `v` is an instance
of `t`, and otherwise fails; concretely `ensure_type(5, int)` succeeds
and `ensure_type("5", int)` fails with a message containing both `"int"`
and `"str"`. -/
theorem C4_ensure_type_iff_isinstance :
    (∀ (v : PyVal) (t : PyType) (n : String),
      ensure_type v t n = Except.ok () ↔ pyIsinstance v t = true) ∧
    ensure_type_default (PyVal.vInt 5) PyType.tInt = Except.ok () ∧
    (∃ msg, ensure_type_default (PyVal.vStr "5") PyType.tInt = Except.error msg ∧
      ContainsSubstr msg "int" ∧ ContainsSubstr msg "str") := by
  refine ⟨?_, rfl, "value must be int, got str", rfl, ?_, ?_⟩
  · intro v t n
    unfold ensure_type
    by_cases h : pyIsinstance v t = true
    · simp [h]
    · simp [h]
  · exact ⟨"value must be ", ", got str", rfl⟩
  · exact ⟨"value must be int, got ", "", rfl⟩

/-- C5: the `ensure_type` failure message includes the caller-supplied
`name`, which defaults to the literal string `"value"` when omitted;
`ensure_type((1,2,3), list, name="items")` fails with a message
containing `"items must be list, got tuple"`, and
`ensure_type(None, int, name="count")` fails with a message containing
`"count"`. -/
theorem C5_ensure_type_name_in_message :
    (∀ (v : PyVal) (t : PyType), ensure_type_default v t = ensure_type v t "value") ∧
    (∃ msg,
      ensure_type (PyVal.vTuple [PyVal.vInt 1, PyVal.vInt 2, PyVal.vInt 3])
        PyType.tList "items" = Except.error msg ∧
      ContainsSubstr msg "items must be list, got tuple") ∧
    (∃ msg, ensure_type PyVal.vNone PyType.tInt "count" = Except.error msg ∧
      ContainsSubstr msg "count") := by
  refine ⟨fun v t => rfl, ⟨"items must be list, got tuple", rfl, "", "", rfl⟩,
    ⟨"count must be int, got NoneType", rfl, "", " must be int, got NoneType", rfl⟩⟩

/-- C6: for every `Result r`, `r.is_err` equals the negation of
`r.is_ok`, for every constructible `Result` including both-`None` and
both-set constructions. -/
theorem C6_is_err_negates_is_ok (V : Type) (r : Result V) :
    r.is_err = !r.is_ok := by
  cases h : r.error <;> simp [Result.is_err, Result.is_ok, h]

/-- C7: for all inputs `v` and `e` (each independently optional),
`Result(value=v, error=e)` performs no validation and yields an instance
whose `value` field equals `v` and whose `error` field equals `e`,
exactly as given. -/
theorem C7_constructor_stores_fields (V : Type) (v : Option V) (e : Option String) :
    (Result.mk v e).value = v ∧ (Result.mk v e).error = e :=
  ⟨rfl, rfl⟩

/-- C8: calling `unwrap` on a failure-state `Result` raises but leaves
the object unchanged: afterwards the `value` and `error` fields still
hold exactly what was stored at construction, and `is_ok`/`is_err` give
the same answers as before the call. -/
theorem C8_unwrap_error_leaves_result_unchanged (V : Type) (v : Option V) (e : String) :
    (∃ msg, ((Result.mk v (some e)).unwrapS).2 = Except.error msg) ∧
    ((Result.mk v (some e)).unwrapS).1.value = v ∧
    ((Result.mk v (some e)).unwrapS).1.error = some e ∧
    ((Result.mk v (some e)).unwrapS).1.is_ok = (Result.mk v (some e)).is_ok ∧
    ((Result.mk v (some e)).unwrapS).1.is_err = (Result.mk v (some e)).is_err :=
  ⟨⟨"Called unwrap on error: " ++ e, rfl⟩, rfl, rfl, rfl, rfl⟩

/-- C9: `ensure_type` accepts strict subclass instances, not only exact
type matches: for every value whose type is a proper subclass of the
expected type, it succeeds; concretely `ensure_type(True, int)` succeeds
because `bool` is a subclass of `int`. -/
theorem C9_ensure_type_accepts_subclass (v : PyVal) (t : PyType) (n : String)
    (hne : typeOf v ≠ t) (hsub : isSubclassOf (typeOf v) t = true) :
    ensure_type v t n = Except.ok () := by
  unfold ensure_type pyIsinstance
  simp [hsub]

/-- Witness for C9 at `ensure_type(True, int)`: `bool` is a proper
subclass of `int` and the guard succeeds. -/
theorem C9_ensure_type_accepts_subclass_witness :
    typeOf (PyVal.vBool true) ≠ PyType.tInt ∧
    isSubclassOf (typeOf (PyVal.vBool true)) PyType.tInt = true ∧
    ensure_type (PyVal.vBool true) PyType.tInt "value" = Except.ok () :=
  ⟨by decide, by decide,
    C9_ensure_type_accepts_subclass (PyVal.vBool true) PyType.tInt "value"
      (by decide) (by decide)⟩

/-- C10: constructing `Result` with no arguments is permitted: both
`value` and `error` default to `None`, so `Result()` has `is_ok` true,
`is_err` false, and `unwrap` succeeds and returns `None`. -/
theorem C10_default_construction (V : Type) :
    (Result.mkDefault V).is_ok = true ∧
    (Result.mkDefault V).is_err = false ∧
    (Result.mkDefault V).unwrap = Except.ok none :=
  ⟨rfl, rfl, rfl⟩

end CommonTypes
